import Mathlib

/-!
Verification of the swisscomm-technical-assessment ingestion/compliance pipeline.

The development shallowly embeds the three Lambda stages:
 * `Trigger` — `lambda_trigger/index.py` (key validation and dispatch of a batch
   of S3 upload notifications to Step Functions);
 * `Writer` — `lambda_writer/index.py` (filename validation and idempotent
   conditional insert of a metadata record into DynamoDB);
 * `Monitor` — `lambda_security_monitor/index.py` (encryption-compliance scan of
   S3 buckets and DynamoDB tables, aggregation, SNS alerting).

Python strings become `String`, dict field access becomes `Option`, raised
exceptions become `Except` errors, and the external stores become explicit
state / environment values.
-/

/-- The set of characters stripped by Python `str.strip()` for the ASCII and
Latin-1 range (whitespace in the sense of `str.isspace`). -/
def isPyWhitespace (c : Char) : Bool :=
  c = ' ' || c = '\t' || c = '\n' || c = '\r' ||
  c = Char.ofNat 0x0b || c = Char.ofNat 0x0c ||
  c = Char.ofNat 0x1c || c = Char.ofNat 0x1d ||
  c = Char.ofNat 0x1e || c = Char.ofNat 0x1f || c = Char.ofNat 0x85

/-- Python `'..' in s`: the string contains two consecutive dots. -/
def hasDotDot : List Char → Bool
  | [] => false
  | [_] => false
  | c₁ :: c₂ :: rest => (c₁ = '.' && c₂ = '.') || hasDotDot (c₂ :: rest)

/-- Python `'\x00' in s`. -/
def hasNullByte (s : String) : Bool :=
  s.data.contains (Char.ofNat 0)

/-- Python `not s or not s.strip()`: empty or whitespace-only. -/
def isBlank (s : String) : Bool :=
  s.data.all isPyWhitespace

/-- Python `s.startswith('/')`: the first character is a slash. -/
def startsWithSlash (s : String) : Bool :=
  match s.data with
  | [] => false
  | c :: _ => c = '/'

namespace Trigger

/-- `validate_s3_key` from `lambda_trigger/index.py`: checks path traversal,
null bytes, length, emptiness, in that order; raises `ValueError` (modelled as
`Except.error` carrying the message) on the first violated rule, returns
`True` otherwise. -/
def validate_s3_key (key : String) : Except String Bool :=
  if hasDotDot key.data || startsWithSlash key then
    .error ("Invalid key path (path traversal attempt): " ++ key)
  else if hasNullByte key then
    .error ("Key contains null bytes: " ++ key)
  else if key.length > 1024 then
    .error ("Key too long: " ++ toString key.length ++ " characters (max: 1024)")
  else if isBlank key then
    .error "Key cannot be empty"
  else
    .ok true

end Trigger

namespace Writer

/-- `validate_filename` from `lambda_writer/index.py`: checks emptiness,
length, path traversal, null bytes, in that order. -/
def validate_filename (filename : String) : Except String Bool :=
  if isBlank filename then
    .error "Filename cannot be empty"
  else if filename.length > 1024 then
    .error ("Filename too long: " ++ toString filename.length ++ " characters (max: 1024)")
  else if hasDotDot filename.data || startsWithSlash filename then
    .error ("Invalid filename (path traversal attempt): " ++ filename)
  else if hasNullByte filename then
    .error ("Filename contains null bytes: " ++ filename)
  else
    .ok true

end Writer

/-- Whether a validator call succeeded (did not raise). -/
def exceptOk {ε α : Type} : Except ε α → Bool
  | .ok _ => true
  | .error _ => false

/-- The rejection predicate as the spec words it: empty or whitespace-only,
or longer than 1024 characters, or containing the substring `..`, or
beginning with `/`, or containing a null byte. -/
def rejectSpec (s : String) : Bool :=
  isBlank s || decide (s.length > 1024) || hasDotDot s.data ||
  startsWithSlash s || hasNullByte s

theorem validate_s3_key_ok_iff (key : String) :
    exceptOk (Trigger.validate_s3_key key) = !(rejectSpec key) := by
  unfold Trigger.validate_s3_key rejectSpec
  cases h₁ : (hasDotDot key.data || startsWithSlash key) <;>
  cases h₂ : hasNullByte key <;>
  by_cases h₃ : 1024 < key.length <;>
  cases h₄ : isBlank key <;>
  simp [h₁, h₂, h₃, h₄, exceptOk]

theorem validate_filename_ok_iff (filename : String) :
    exceptOk (Writer.validate_filename filename) = !(rejectSpec filename) := by
  unfold Writer.validate_filename rejectSpec
  cases h₁ : (hasDotDot filename.data || startsWithSlash filename) <;>
  cases h₂ : hasNullByte filename <;>
  by_cases h₃ : 1024 < filename.length <;>
  cases h₄ : isBlank filename <;>
  simp [h₁, h₂, h₃, h₄, exceptOk]

/-- C3: the Dispatch stage's key validator rejects a string if and only if it
is empty or whitespace-only, longer than 1024 characters, contains the
substring `..`, begins with `/`, or contains a null byte; every other string
is accepted. (The embedding is a pure function, so validation has no side
effects.) -/
theorem trigger_validator_characterisation (key : String) :
    exceptOk (Trigger.validate_s3_key key) = false ↔
      (isBlank key || decide (key.length > 1024) || hasDotDot key.data ||
       startsWithSlash key || hasNullByte key) = true := by
  rw [validate_s3_key_ok_iff]
  unfold rejectSpec
  cases h : (isBlank key || decide (key.length > 1024) || hasDotDot key.data ||
      startsWithSlash key || hasNullByte key) <;> simp [h]

/-- C6: the Dispatch stage's key validator and the Metadata Writer's filename
validator accept exactly the same set of strings. -/
theorem validators_agree (s : String) :
    exceptOk (Trigger.validate_s3_key s) = exceptOk (Writer.validate_filename s) := by
  rw [validate_s3_key_ok_iff, validate_filename_ok_iff]

namespace Trigger

/-- One record of an S3 event notification batch, as read by the handler. -/
structure S3Record where
  bucket : String
  key : String
  eventTime : String
deriving Repr, DecidableEq

/-- The body of the handler's return value: either the success payload listing
the started execution ARNs, or the graceful-halt message produced when a
`ValueError` from validation is caught. -/
inductive TriggerBody where
  | success (executions : List String)
  | halted (message : String)
deriving Repr, DecidableEq

/-- The handler's structured return value. -/
structure TriggerResult where
  statusCode : Nat
  body : TriggerBody
deriving Repr, DecidableEq

/-- The loop of `handler`: processes the records in order, starting one Step
Function execution per validated record (the orchestrator assigns ARN
`arnOf n` to the n-th `start_execution` call); the first record whose key
fails validation raises, which aborts the loop with that error. Returns the
executions started so far together with the validation error, if any. -/
def runRecords (arnOf : Nat → String) : List S3Record → Nat → List String × Option String
  | [], _ => ([], none)
  | r :: rest, n =>
    match validate_s3_key r.key with
    | .error e => ([], some e)
    | .ok _ =>
      let p := runRecords arnOf rest (n + 1)
      (arnOf n :: p.1, p.2)

/-- `handler` from `lambda_trigger/index.py`: iterates the batch; a
`ValueError` escaping the loop is caught and turned into a 200 response with
an explanatory message (the "halt gracefully" branch). The second component
records the executions actually started (the side effects on the
orchestrator). -/
def handler (arnOf : Nat → String) (records : List S3Record) : TriggerResult × List String :=
  match runRecords arnOf records 0 with
  | (arns, none) => (⟨200, .success arns⟩, arns)
  | (arns, some e) => (⟨200, .halted ("Validation failed, pipeline halted: " ++ e)⟩, arns)

/-- Whether a record's key passes validation. -/
def keyOk (r : S3Record) : Bool :=
  exceptOk (validate_s3_key r.key)

theorem runRecords_length (arnOf : Nat → String) :
    ∀ (rs : List S3Record) (n : Nat),
      (runRecords arnOf rs n).1.length = (rs.takeWhile keyOk).length := by
  intro rs
  induction rs with
  | nil => intro n; rfl
  | cons r rest ih =>
    intro n
    cases h : validate_s3_key r.key with
    | error e =>
      simp [runRecords, h, List.takeWhile, keyOk, exceptOk]
    | ok b =>
      simp [runRecords, h, List.takeWhile, keyOk, exceptOk, ih]

theorem runRecords_err_none_iff (arnOf : Nat → String) :
    ∀ (rs : List S3Record) (n : Nat),
      (runRecords arnOf rs n).2 = none ↔ rs.all keyOk = true := by
  intro rs
  induction rs with
  | nil => intro n; simp [runRecords]
  | cons r rest ih =>
    intro n
    cases h : validate_s3_key r.key with
    | error e =>
      simp [runRecords, h, keyOk, exceptOk]
    | ok b =>
      simp [runRecords, h, keyOk, exceptOk, ih]

end Trigger

namespace Trigger

/-- C1 (amended): the Dispatch stage always returns status 200, but a
validation failure halts the batch rather than being skipped: executions are
started exactly for the maximal valid prefix of the batch, and as soon as some
record fails validation the response body is the explanatory halt message
instead of the execution list. If every record is valid, the body lists all
started executions. -/
theorem dispatch_halts_at_first_invalid (arnOf : Nat → String) (rs : List S3Record) :
    (handler arnOf rs).1.statusCode = 200 ∧
    (handler arnOf rs).2.length = (rs.takeWhile keyOk).length ∧
    (rs.all keyOk = true →
      (handler arnOf rs).1.body = .success (handler arnOf rs).2) ∧
    (rs.all keyOk = false →
      ∃ m, (handler arnOf rs).1.body = .halted m) := by
  have hlen := runRecords_length arnOf rs 0
  have hiff := runRecords_err_none_iff arnOf rs 0
  rcases hrun : runRecords arnOf rs 0 with ⟨arns, err⟩
  rw [hrun] at hlen hiff
  cases err with
  | none =>
    refine ⟨by simp [handler, hrun], ?_, fun _ => by simp [handler, hrun], fun hall => ?_⟩
    · simpa [handler, hrun] using hlen
    · have htrue : rs.all keyOk = true := hiff.mp rfl
      simp [htrue] at hall
  | some e =>
    refine ⟨by simp [handler, hrun], ?_, fun hall => ?_, fun _ => ?_⟩
    · simpa [handler, hrun] using hlen
    · simpa using hiff.mpr hall
    · exact ⟨"Validation failed, pipeline halted: " ++ e, by simp [handler, hrun]⟩

/-- A concrete valid record. -/
def goodRec : S3Record := ⟨"uploads", "reports/q1.csv", "2025-01-01T00:00:00Z"⟩

/-- A concrete record whose key fails validation (path traversal). -/
def badRec : S3Record := ⟨"uploads", "../secret", "2025-01-01T00:00:00Z"⟩

/-- C1 counterexample: a batch holding one invalid and one valid notification,
invalid first, starts zero workflow executions (not one), and the 200 response
carries the halt message instead of listing an execution handle. -/
theorem dispatch_skip_counterexample :
    (handler (fun n => "exec-" ++ toString n) [badRec, goodRec]).2 = [] ∧
    (handler (fun n => "exec-" ++ toString n) [badRec, goodRec]).1.body =
      .halted "Validation failed, pipeline halted: Invalid key path (path traversal attempt): ../secret" := by
  constructor <;> rfl

/-- Witness for `dispatch_halts_at_first_invalid` at the two-record batch of
the counterexample: the hypothesis of the halt branch holds there and the body
is some halt message. -/
theorem dispatch_halts_witness :
    ([badRec, goodRec].all keyOk = false) ∧
    (∃ m, (handler (fun n => "exec-" ++ toString n) [badRec, goodRec]).1.body = .halted m) :=
  ⟨by decide,
   (dispatch_halts_at_first_invalid (fun n => "exec-" ++ toString n) [badRec, goodRec]).2.2.2
     (by decide)⟩

end Trigger

namespace Writer

/-- A persisted metadata record (the DynamoDB item written by the Writer). -/
structure MetaRecord where
  Filename : String
  UploadTimestamp : String
  Bucket : String
  EventTime : String
deriving Repr, DecidableEq

/-- The metadata table's contents, in insertion order. -/
abbrev Store := List MetaRecord

/-- Whether some item with the given (Filename, UploadTimestamp) primary key
is present — the condition tested by
`attribute_not_exists(Filename) AND attribute_not_exists(UploadTimestamp)`. -/
def keyExists (s : Store) (fn ts : String) : Bool :=
  List.any s (fun r => r.Filename == fn && r.UploadTimestamp == ts)

/-- How many items with the given primary key the store holds. -/
def keyCount (s : Store) (fn ts : String) : Nat :=
  List.length (List.filter (fun r => r.Filename == fn && r.UploadTimestamp == ts) s)

/-- `put_item` with the conditional expression: atomically inserts the item if
no record with its (Filename, UploadTimestamp) key exists, otherwise fails the
conditional check (`false`) leaving the table untouched. -/
def conditionalPut (s : Store) (item : MetaRecord) : Store × Bool :=
  if keyExists s item.Filename item.UploadTimestamp then (s, false)
  else (s ++ [item], true)

/-- The event dict consumed by the Writer: `key` and `bucket` are accessed
with `event[...]` (mandatory), `timestamp` and `event_time` with
`event.get(...)` (optional). -/
structure WriterEvent where
  key : Option String
  timestamp : Option String
  bucket : Option String
  event_time : Option String
deriving Repr, DecidableEq

/-- The structured dict the Writer returns: 200 with
filename/timestamp/bucket on a fresh write, 409 with filename/timestamp on a
duplicate. -/
inductive WriterOutcome where
  | written (filename timestamp bucket : String)
  | duplicate (filename timestamp : String)
deriving Repr, DecidableEq

/-- The status code of a structured Writer result. -/
def statusOf : WriterOutcome → Nat
  | .written _ _ _ => 200
  | .duplicate _ _ => 409

/-- Exceptions that escape the Writer's handler: a `KeyError` from a missing
mandatory event field, or the re-raised `ValueError` from filename
validation. -/
inductive WriterError where
  | keyError (field : String)
  | validationError (message : String)
deriving Repr, DecidableEq

/-- `handler` from `lambda_writer/index.py`, as a state transformer on the
metadata table. Reads `event['key']`, `event.get('timestamp', now)`,
`event['bucket']`, `event.get('event_time', timestamp)` in the source's
order, validates the filename (re-raising `ValueError`), then performs the
conditional insert, mapping a conditional-check failure to the 409 result. -/
def handler (now : String) (s : Store) (ev : WriterEvent) :
    Except WriterError WriterOutcome × Store :=
  match ev.key, ev.bucket with
  | none, _ => (.error (.keyError "key"), s)
  | some _, none => (.error (.keyError "bucket"), s)
  | some filename, some bucket =>
    match validate_filename filename with
    | .error m => (.error (.validationError m), s)
    | .ok _ =>
      match conditionalPut s ⟨filename, ev.timestamp.getD now, bucket,
          ev.event_time.getD (ev.timestamp.getD now)⟩ with
      | (s', true) => (.ok (.written filename (ev.timestamp.getD now) bucket), s')
      | (s', false) => (.ok (.duplicate filename (ev.timestamp.getD now)), s')

/-- Run a sequence of Writer calls, threading the store. -/
def runAll (now : String) (s : Store) : List WriterEvent → Store
  | [] => s
  | ev :: rest => runAll now (handler now s ev).2 rest

end Writer

namespace Writer

theorem exceptOk_true_iff {ε α : Type} (x : Except ε α) :
    exceptOk x = true ↔ ∃ a, x = .ok a := by
  cases x <;> simp [exceptOk]

theorem keyExists_append (s : Store) (item : MetaRecord) (f t : String) :
    keyExists (s ++ [item]) f t =
      (keyExists s f t || (item.Filename == f && item.UploadTimestamp == t)) := by
  simp [keyExists, List.any_append]

theorem keyCount_append (s : Store) (item : MetaRecord) (f t : String) :
    keyCount (s ++ [item]) f t =
      keyCount s f t +
        (if (item.Filename == f && item.UploadTimestamp == t) = true then 1 else 0) := by
  by_cases h : (item.Filename == f && item.UploadTimestamp == t) = true <;>
    simp [keyCount, List.filter_append, h]

theorem keyExists_false_count (s : Store) (f t : String)
    (h : keyExists s f t = false) : keyCount s f t = 0 := by
  simp only [keyExists, List.any_eq_false] at h
  simp only [keyCount, List.length_eq_zero, List.filter_eq_nil_iff]
  intro r hr
  simp [h r hr]

/-- The store after one Writer call: either untouched, or extended with a
single item whose primary key was not present before. -/
theorem handler_store_cases (now : String) (s : Store) (ev : WriterEvent) :
    (handler now s ev).2 = s ∨
    ∃ item, (handler now s ev).2 = s ++ [item] ∧
      keyExists s item.Filename item.UploadTimestamp = false := by
  obtain ⟨key?, ts?, b?, et?⟩ := ev
  cases key? with
  | none => exact Or.inl rfl
  | some filename =>
    cases b? with
    | none => exact Or.inl rfl
    | some bucket =>
      cases hv : validate_filename filename with
      | error m => simp [handler, hv]
      | ok b =>
        by_cases hex : keyExists s filename (ts?.getD now) = true
        · simp [handler, hv, conditionalPut, hex]
        · rw [Bool.not_eq_true] at hex
          refine Or.inr ⟨⟨filename, ts?.getD now, bucket, et?.getD (ts?.getD now)⟩,
            ?_, hex⟩
          simp [handler, hv, conditionalPut, hex]

/-- One Writer call preserves at-most-one-record-per-key. -/
theorem handler_preserves_invariant (now : String) (s : Store) (ev : WriterEvent)
    (hinv : ∀ f t, keyCount s f t ≤ 1) :
    ∀ f t, keyCount (handler now s ev).2 f t ≤ 1 := by
  intro f t
  rcases handler_store_cases now s ev with h | ⟨item, heq, hex⟩
  · rw [h]; exact hinv f t
  · rw [heq, keyCount_append]
    by_cases hkey : (item.Filename == f && item.UploadTimestamp == t) = true
    · have : f = item.Filename ∧ t = item.UploadTimestamp := by
        simp only [Bool.and_eq_true, beq_iff_eq] at hkey
        exact ⟨hkey.1.symm, hkey.2.symm⟩
      rcases this with ⟨rfl, rfl⟩
      rw [keyExists_false_count s _ _ hex]
      simp [hkey]
    · simp only [hkey, if_false]
      simpa using hinv f t

theorem runAll_preserves_invariant (now : String) :
    ∀ (evs : List WriterEvent) (s : Store),
      (∀ f t, keyCount s f t ≤ 1) →
      ∀ f t, keyCount (runAll now s evs) f t ≤ 1 := by
  intro evs
  induction evs with
  | nil => intro s hinv; exact hinv
  | cons ev rest ih =>
    intro s hinv
    exact ih _ (handler_preserves_invariant now s ev hinv)

end Writer

namespace Writer

/-- C2: for two Writer calls carrying the same (Filename, UploadTimestamp)
key against a store not yet holding that key, the first call returns the
`written` result (status 200) and the second the `duplicate` result (status
409) — never two `written` — whichever of the two events comes first; the
duplicate-rejected call leaves the store exactly as it was; and any sequence
of Writer calls preserves "at most one record per (Filename,
UploadTimestamp) pair". -/
theorem writer_idempotent (now fn ts b₁ b₂ : String) (et₁ et₂ : Option String) (s : Store)
    (hval : exceptOk (validate_filename fn) = true)
    (hfresh : keyExists s fn ts = false)
    (hinv : ∀ f t, keyCount s f t ≤ 1) :
    (handler now s ⟨some fn, some ts, some b₁, et₁⟩).1 = .ok (.written fn ts b₁) ∧
    statusOf (.written fn ts b₁) = 200 ∧
    (handler now (handler now s ⟨some fn, some ts, some b₁, et₁⟩).2
        ⟨some fn, some ts, some b₂, et₂⟩).1 = .ok (.duplicate fn ts) ∧
    statusOf (.duplicate fn ts) = 409 ∧
    (handler now (handler now s ⟨some fn, some ts, some b₁, et₁⟩).2
        ⟨some fn, some ts, some b₂, et₂⟩).2 =
      (handler now s ⟨some fn, some ts, some b₁, et₁⟩).2 ∧
    (∀ f t, keyCount (handler now (handler now s ⟨some fn, some ts, some b₁, et₁⟩).2
        ⟨some fn, some ts, some b₂, et₂⟩).2 f t ≤ 1) ∧
    (∀ (s₀ : Store) (evs : List WriterEvent), (∀ f t, keyCount s₀ f t ≤ 1) →
      ∀ f t, keyCount (runAll now s₀ evs) f t ≤ 1) := by
  obtain ⟨v, hv⟩ := (exceptOk_true_iff _).mp hval
  have h1 : handler now s ⟨some fn, some ts, some b₁, et₁⟩ =
      (.ok (.written fn ts b₁), s ++ [⟨fn, ts, b₁, et₁.getD ts⟩]) := by
    simp [handler, hv, conditionalPut, hfresh]
  have hex2 : keyExists (s ++ [⟨fn, ts, b₁, et₁.getD ts⟩]) fn ts = true := by
    simp [keyExists_append]
  have h2 : handler now (s ++ [⟨fn, ts, b₁, et₁.getD ts⟩]) ⟨some fn, some ts, some b₂, et₂⟩ =
      (.ok (.duplicate fn ts), s ++ [⟨fn, ts, b₁, et₁.getD ts⟩]) := by
    simp [handler, hv, conditionalPut, hex2]
  have hinv1 : ∀ f t, keyCount (handler now s ⟨some fn, some ts, some b₁, et₁⟩).2 f t ≤ 1 :=
    handler_preserves_invariant now s _ hinv
  have hinv2 := handler_preserves_invariant now
    (handler now s ⟨some fn, some ts, some b₁, et₁⟩).2 ⟨some fn, some ts, some b₂, et₂⟩ hinv1
  refine ⟨by rw [h1], rfl, by rw [h1, h2], rfl, by rw [h1, h2], hinv2,
    fun s₀ evs h => runAll_preserves_invariant now evs s₀ h⟩

/-- Witness for `writer_idempotent` at a concrete pair of calls against the
empty store. -/
theorem writer_idempotent_witness :
    exceptOk (validate_filename "reports/q1.csv") = true ∧
    keyExists [] "reports/q1.csv" "2025-01-01T00:00:00Z" = false ∧
    (∀ f t, keyCount [] f t ≤ 1) ∧
    ((handler "T" [] ⟨some "reports/q1.csv", some "2025-01-01T00:00:00Z", some "b1", none⟩).1 =
      .ok (.written "reports/q1.csv" "2025-01-01T00:00:00Z" "b1") ∧
     statusOf (.written "reports/q1.csv" "2025-01-01T00:00:00Z" "b1") = 200 ∧
     (handler "T" (handler "T" []
          ⟨some "reports/q1.csv", some "2025-01-01T00:00:00Z", some "b1", none⟩).2
        ⟨some "reports/q1.csv", some "2025-01-01T00:00:00Z", some "b2", none⟩).1 =
      .ok (.duplicate "reports/q1.csv" "2025-01-01T00:00:00Z") ∧
     statusOf (.duplicate "reports/q1.csv" "2025-01-01T00:00:00Z") = 409 ∧
     (handler "T" (handler "T" []
          ⟨some "reports/q1.csv", some "2025-01-01T00:00:00Z", some "b1", none⟩).2
        ⟨some "reports/q1.csv", some "2025-01-01T00:00:00Z", some "b2", none⟩).2 =
      (handler "T" []
          ⟨some "reports/q1.csv", some "2025-01-01T00:00:00Z", some "b1", none⟩).2 ∧
     (∀ f t, keyCount (handler "T" (handler "T" []
          ⟨some "reports/q1.csv", some "2025-01-01T00:00:00Z", some "b1", none⟩).2
        ⟨some "reports/q1.csv", some "2025-01-01T00:00:00Z", some "b2", none⟩).2 f t ≤ 1) ∧
     (∀ (s₀ : Store) (evs : List WriterEvent), (∀ f t, keyCount s₀ f t ≤ 1) →
       ∀ f t, keyCount (runAll "T" s₀ evs) f t ≤ 1)) :=
  ⟨by decide, by decide, fun f t => by simp [keyCount],
   writer_idempotent "T" "reports/q1.csv" "2025-01-01T00:00:00Z" "b1" "b2" none none []
     (by decide) (by decide) (fun f t => by simp [keyCount])⟩

/-- C8: a Writer call whose key fails filename validation surfaces the
validation error to the caller — no structured 200/409 result — and leaves
the metadata store untouched. -/
theorem writer_surfaces_validation_failure (now : String) (s : Store) (ev : WriterEvent)
    (fn b : String) (hk : ev.key = some fn) (hb : ev.bucket = some b)
    (hval : exceptOk (validate_filename fn) = false) :
    (∃ m, (handler now s ev).1 = .error (.validationError m)) ∧
    (handler now s ev).2 = s := by
  obtain ⟨key?, ts?, b?, et?⟩ := ev
  simp only at hk hb
  subst hk hb
  cases hv : validate_filename fn with
  | error m => exact ⟨⟨m, by simp [handler, hv]⟩, by simp [handler, hv]⟩
  | ok v => rw [hv] at hval; simp [exceptOk] at hval

/-- Witness for `writer_surfaces_validation_failure` on a path-traversal
filename. -/
theorem writer_surfaces_validation_failure_witness :
    (WriterEvent.mk (some "../../../etc/passwd") none (some "b") none).key =
      some "../../../etc/passwd" ∧
    (WriterEvent.mk (some "../../../etc/passwd") none (some "b") none).bucket = some "b" ∧
    exceptOk (validate_filename "../../../etc/passwd") = false ∧
    ((∃ m, (handler "T" [] ⟨some "../../../etc/passwd", none, some "b", none⟩).1 =
        .error (.validationError m)) ∧
     (handler "T" [] ⟨some "../../../etc/passwd", none, some "b", none⟩).2 = []) :=
  ⟨rfl, rfl, by decide,
   writer_surfaces_validation_failure "T" [] ⟨some "../../../etc/passwd", none, some "b", none⟩
     "../../../etc/passwd" "b" rfl rfl (by decide)⟩

/-- C10: a Writer event missing the mandatory `key` or `bucket` field makes
the handler fail with a `KeyError` (a lookup error, not a `ValidationError`
and not a structured result), before any store write: the store is unchanged.
The witness below pairs a missing bucket with a filename that would itself
fail validation, showing the lookup error fires before filename
validation. -/
theorem writer_missing_field_keyerror (now : String) (s : Store) (ev : WriterEvent)
    (h : ev.key = none ∨ ev.bucket = none) :
    (∃ f, (handler now s ev).1 = .error (.keyError f)) ∧
    (handler now s ev).2 = s := by
  obtain ⟨key?, ts?, b?, et?⟩ := ev
  cases key? with
  | none => exact ⟨⟨"key", rfl⟩, rfl⟩
  | some fn =>
    cases b? with
    | none => exact ⟨⟨"bucket", rfl⟩, rfl⟩
    | some b =>
      simp only at h
      rcases h with h | h <;> cases h

/-- Witness for `writer_missing_field_keyerror`: bucket missing while the
key is present but invalid — the `KeyError` wins over validation. -/
theorem writer_missing_field_keyerror_witness :
    ((WriterEvent.mk (some "../oops") none none none).key = none ∨
     (WriterEvent.mk (some "../oops") none none none).bucket = none) ∧
    ((∃ f, (handler "T" [] ⟨some "../oops", none, none, none⟩).1 = .error (.keyError f)) ∧
     (handler "T" [] ⟨some "../oops", none, none, none⟩).2 = []) :=
  ⟨Or.inr rfl,
   writer_missing_field_keyerror "T" [] ⟨some "../oops", none, none, none⟩ (Or.inr rfl)⟩

end Writer

namespace Monitor

/-- What inspecting one bucket's encryption yields: a configuration whose
first rule carries the given default SSE algorithm, the distinguished
`ServerSideEncryptionConfigurationNotFoundError`, or any other
`ClientError`. -/
inductive BucketEnc where
  | config (algorithm : String)
  | notFound
  | otherError (message : String)
deriving Repr, DecidableEq

/-- What `describe_table` yields for one table: a description whose
`SSEDescription` is absent (`none`), or present with an optional `Status`
string; or a `ClientError`. -/
inductive TableInspect where
  | desc (sse : Option (Option String))
  | describeError (message : String)
deriving Repr, DecidableEq

/-- One non-compliant bucket, as the dict appended to `s3_issues`. -/
structure S3Issue where
  name : String
  reason : String
deriving Repr, DecidableEq

/-- `check_s3_encryption` from `lambda_security_monitor/index.py`: walks the
enumerated buckets in order; a non-`aws:kms` algorithm or a missing
configuration contributes one issue, a compliant bucket none, and any other
per-bucket `ClientError` is logged and skipped. -/
def check_s3_encryption : List (String × BucketEnc) → List S3Issue
  | [] => []
  | (bucket_name, enc) :: rest =>
    (match enc with
     | .config algorithm =>
       if algorithm ≠ "aws:kms" then
         [⟨bucket_name,
           "is not encrypted with a KMS key (uses default " ++ algorithm ++ " encryption)."⟩]
       else []
     | .notFound => [⟨bucket_name, "has no encryption configuration at all."⟩]
     | .otherError _ => []) ++ check_s3_encryption rest

/-- `check_dynamodb_encryption`: walks the enumerated tables in order; a
table whose `SSEDescription` is missing or whose `Status` is not `ENABLED`
contributes its name, and a per-table `ClientError` is logged and skipped. -/
def check_dynamodb_encryption : List (String × TableInspect) → List String
  | [] => []
  | (table_name, t) :: rest =>
    (match t with
     | .desc sse =>
       (match sse with
        | none => [table_name]
        | some status? => if status? ≠ some "ENABLED" then [table_name] else [])
     | .describeError _ => []) ++ check_dynamodb_encryption rest

/-- The line the handler builds for one bucket issue. -/
def fmtBucket (issue : S3Issue) : String :=
  "S3 Bucket '" ++ issue.name ++ "' " ++ issue.reason

/-- The line the handler builds for one table issue. -/
def fmtTable (table_name : String) : String :=
  "DynamoDB Table '" ++ table_name ++ "' is not encrypted."

/-- The handler's `for` loops appending formatted lines to `all_issues`. -/
def appendAll {α : Type} (fmt : α → String) (acc : List String) : List α → List String
  | [] => acc
  | x :: xs => appendAll fmt (acc ++ [fmt x]) xs

/-- `all_issues` as the handler builds it: the bucket lines first, in
enumeration order, then the table lines, in enumeration order. -/
def aggregate (bs : List (String × BucketEnc)) (ts : List (String × TableInspect)) :
    List String :=
  appendAll fmtTable (appendAll fmtBucket [] (check_s3_encryption bs))
    (check_dynamodb_encryption ts)

/-- One SNS publish call (subject and message). -/
structure Published where
  subject : String
  message : String
deriving Repr, DecidableEq

/-- The fixed subject used by `send_alert`. -/
def alertSubject : String := "Audit Complete: Resources Need KMS Encryption Review"

/-- The fixed friendly preamble of `send_alert`. -/
def messageIntro : String :=
  "Hi team,\n\nOur automated security auditor just finished its daily scan and found a few resources that don't seem to be using our preferred KMS encryption. Don't panic! Most of these are probably just using default AWS encryption, but our policy is to use KMS for everything.\n\nHere's a breakdown of what it found:\n\n"

/-- The fixed postamble of `send_alert`. -/
def messageFooter : String :=
  "\n\nPlease take a look at these when you get a chance so we can stay compliant. If these are low-priority or dev resources, no rush.\n\nThanks!\n\n- Your Friendly Security Bot"

/-- `send_alert`: one bullet line per issue between the fixed preamble and
postamble. -/
def send_alert (issues_list : List String) : Published :=
  ⟨alertSubject,
   messageIntro ++
     String.intercalate "\n" (issues_list.map (fun issue => "• " ++ issue)) ++
     messageFooter⟩

/-- The distinct best-effort alert published when the scan itself fails. -/
def failAlertMsg (e : String) : Published :=
  ⟨"⚠️ Security Scan FAILED",
   "The scheduled security scan encountered a critical error and could not complete:\n\n" ++ e⟩

/-- The scan's environment: the outcome of enumerating and inspecting the
buckets and tables (an `error` means enumeration itself raised), whether the
main alert publish raises (`publishFails`), and whether the best-effort
failure-alert publish raises (`failAlertFails` — swallowed by the bare
`except: pass`, so the handler never depends on it). -/
structure ScanEnv where
  buckets : Except String (List (String × BucketEnc))
  tables : Except String (List (String × TableInspect))
  publishFails : Option String
  failAlertFails : Bool

/-- The handler's structured 200 return value. -/
structure ScanResult where
  statusCode : Nat
  issues_found : Nat
  issues : List String
deriving Repr, DecidableEq

/-- `handler` from `lambda_security_monitor/index.py`: runs both checks,
aggregates, alerts only when issues exist, and on any escaping exception
attempts the distinct scan-failed alert (whose own failure is swallowed)
before re-raising. The second component lists the SNS publish calls
attempted, in order. -/
def handler (env : ScanEnv) : Except String ScanResult × List Published :=
  match env.buckets with
  | .error e => (.error e, [failAlertMsg e])
  | .ok bs =>
    match env.tables with
    | .error e => (.error e, [failAlertMsg e])
    | .ok ts =>
      if (aggregate bs ts).isEmpty then
        (.ok ⟨200, (aggregate bs ts).length, aggregate bs ts⟩, [])
      else
        match env.publishFails with
        | none =>
          (.ok ⟨200, (aggregate bs ts).length, aggregate bs ts⟩, [send_alert (aggregate bs ts)])
        | some pe => (.error pe, [send_alert (aggregate bs ts), failAlertMsg pe])

end Monitor

namespace Monitor

theorem appendAll_eq_map {α : Type} (fmt : α → String) :
    ∀ (xs : List α) (acc : List String), appendAll fmt acc xs = acc ++ xs.map fmt := by
  intro xs
  induction xs with
  | nil => intro acc; simp [appendAll]
  | cons x rest ih => intro acc; simp [appendAll, ih]

theorem check_s3_append (xs ys : List (String × BucketEnc)) :
    check_s3_encryption (xs ++ ys) =
      check_s3_encryption xs ++ check_s3_encryption ys := by
  induction xs with
  | nil => simp [check_s3_encryption]
  | cons p rest ih =>
    obtain ⟨n, e⟩ := p
    simp [check_s3_encryption, ih]

theorem check_dynamodb_append (xs ys : List (String × TableInspect)) :
    check_dynamodb_encryption (xs ++ ys) =
      check_dynamodb_encryption xs ++ check_dynamodb_encryption ys := by
  induction xs with
  | nil => simp [check_dynamodb_encryption]
  | cons p rest ih =>
    obtain ⟨n, t⟩ := p
    simp [check_dynamodb_encryption, ih]

theorem aggregate_eq (bs : List (String × BucketEnc)) (ts : List (String × TableInspect)) :
    aggregate bs ts =
      (check_s3_encryption bs).map fmtBucket ++
      (check_dynamodb_encryption ts).map fmtTable := by
  unfold aggregate
  rw [appendAll_eq_map, appendAll_eq_map]
  simp

/-- C5: per-resource classification. A bucket whose first-rule default
algorithm is `aws:kms` yields no issue; any other algorithm yields exactly
one issue whose reason names that algorithm; a bucket with no encryption
configuration yields exactly one issue with the no-configuration reason. A
table whose encryption status is `ENABLED` yields no issue; a missing
`SSEDescription`, a missing `Status`, or any other status yields exactly the
table's name as one issue. -/
theorem scanner_classification (n alg st : String) :
    check_s3_encryption [(n, .config "aws:kms")] = [] ∧
    (alg ≠ "aws:kms" → check_s3_encryption [(n, .config alg)] =
      [⟨n, "is not encrypted with a KMS key (uses default " ++ alg ++ " encryption)."⟩]) ∧
    check_s3_encryption [(n, .notFound)] =
      [⟨n, "has no encryption configuration at all."⟩] ∧
    check_dynamodb_encryption [(n, .desc (some (some "ENABLED")))] = [] ∧
    check_dynamodb_encryption [(n, .desc none)] = [n] ∧
    check_dynamodb_encryption [(n, .desc (some none))] = [n] ∧
    (st ≠ "ENABLED" → check_dynamodb_encryption [(n, .desc (some (some st)))] = [n]) := by
  refine ⟨?_, fun h => ?_, ?_, ?_, ?_, ?_, fun h => ?_⟩ <;>
    simp [check_s3_encryption, check_dynamodb_encryption, *]

/-- Witness for `scanner_classification` at a non-KMS bucket and a disabled
table. -/
theorem scanner_classification_witness :
    ("AES256" : String) ≠ "aws:kms" ∧ ("DISABLED" : String) ≠ "ENABLED" ∧
    check_s3_encryption [("b", .config "AES256")] =
      [⟨"b", "is not encrypted with a KMS key (uses default AES256 encryption)."⟩] ∧
    check_dynamodb_encryption [("t", .desc (some (some "DISABLED")))] = ["t"] :=
  ⟨by decide, by decide,
   (scanner_classification "b" "AES256" "DISABLED").2.1 (by decide),
   (scanner_classification "t" "AES256" "DISABLED").2.2.2.2.2.2 (by decide)⟩

/-- C4: a per-resource inspection failure (any `ClientError` other than the
distinguished not-found case for buckets) is skipped: it contributes no
issue, the remaining buckets and tables are still classified exactly as they
would be without the failing resource, and the scan handler's overall
outcome is unchanged. -/
theorem scanner_per_resource_isolation (n m : String)
    (pre post : List (String × BucketEnc))
    (pre₂ post₂ : List (String × TableInspect))
    (ts : Except String (List (String × TableInspect)))
    (bsE : Except String (List (String × BucketEnc)))
    (pf : Option String) (fa : Bool) :
    check_s3_encryption (pre ++ (n, .otherError m) :: post) =
      check_s3_encryption pre ++ check_s3_encryption post ∧
    check_dynamodb_encryption (pre₂ ++ (n, .describeError m) :: post₂) =
      check_dynamodb_encryption pre₂ ++ check_dynamodb_encryption post₂ ∧
    handler ⟨.ok (pre ++ (n, .otherError m) :: post), ts, pf, fa⟩ =
      handler ⟨.ok (pre ++ post), ts, pf, fa⟩ ∧
    handler ⟨bsE, .ok (pre₂ ++ (n, .describeError m) :: post₂), pf, fa⟩ =
      handler ⟨bsE, .ok (pre₂ ++ post₂), pf, fa⟩ := by
  have hb : check_s3_encryption (pre ++ (n, .otherError m) :: post) =
      check_s3_encryption (pre ++ post) := by
    rw [check_s3_append, check_s3_append]
    simp [check_s3_encryption]
  have hd : check_dynamodb_encryption (pre₂ ++ (n, .describeError m) :: post₂) =
      check_dynamodb_encryption (pre₂ ++ post₂) := by
    rw [check_dynamodb_append, check_dynamodb_append]
    simp [check_dynamodb_encryption]
  refine ⟨by rw [hb, check_s3_append], by rw [hd, check_dynamodb_append], ?_, ?_⟩
  · cases ts with
    | error e => rfl
    | ok ts' =>
      have hagg : aggregate (pre ++ (n, .otherError m) :: post) ts' =
          aggregate (pre ++ post) ts' := by
        unfold aggregate
        rw [hb]
      simp [handler, hagg]
  · cases bsE with
    | error e => rfl
    | ok bs' =>
      have hagg : aggregate bs' (pre₂ ++ (n, .describeError m) :: post₂) =
          aggregate bs' (pre₂ ++ post₂) := by
        unfold aggregate
        rw [hd]
      simp [handler, hagg]

/-- C7: with a healthy notification channel, a scan whose aggregated issue
list is empty publishes nothing, and a scan with a non-empty list publishes
exactly one alert, whose body holds one bullet line per issue between the
fixed preamble and postamble, the issues being the bucket lines first in
enumeration order and then the table lines in enumeration order. -/
theorem scanner_alert_exactly_once (bs : List (String × BucketEnc))
    (ts : List (String × TableInspect)) (fa : Bool) :
    aggregate bs ts =
      (check_s3_encryption bs).map fmtBucket ++
      (check_dynamodb_encryption ts).map fmtTable ∧
    (aggregate bs ts = [] → (handler ⟨.ok bs, .ok ts, none, fa⟩).2 = []) ∧
    (aggregate bs ts ≠ [] →
      (handler ⟨.ok bs, .ok ts, none, fa⟩).2 = [send_alert (aggregate bs ts)]) ∧
    (send_alert (aggregate bs ts)).message =
      messageIntro ++
        String.intercalate "\n" ((aggregate bs ts).map (fun issue => "• " ++ issue)) ++
        messageFooter := by
  refine ⟨aggregate_eq bs ts, fun h => ?_, fun h => ?_, rfl⟩
  · simp [handler, h]
  · cases hemp : (aggregate bs ts).isEmpty with
    | true => exact absurd (List.isEmpty_iff.mp hemp) h
    | false => simp [handler, hemp]

/-- Witness for `scanner_alert_exactly_once`: one AES256 bucket and one
table without `SSEDescription` produce one publish; no resources produce
none. -/
theorem scanner_alert_exactly_once_witness :
    aggregate [("b1", .config "AES256")] [("t1", .desc none)] ≠ [] ∧
    (handler ⟨.ok [("b1", .config "AES256")], .ok [("t1", .desc none)], none, false⟩).2 =
      [send_alert (aggregate [("b1", .config "AES256")] [("t1", .desc none)])] ∧
    aggregate [] [] = [] ∧
    (handler ⟨.ok [], .ok [], none, false⟩).2 = [] :=
  ⟨by decide,
   (scanner_alert_exactly_once [("b1", .config "AES256")] [("t1", .desc none)] false).2.2.1
     (by decide),
   rfl,
   (scanner_alert_exactly_once [] [] false).2.1 rfl⟩

/-- C9: when the scan cannot run at all (bucket or table enumeration fails),
the original failure is what the handler raises, the distinct scan-failed
alert is the one publish attempted, and the outcome never depends on whether
that best-effort publish itself fails (`fa` / `fa'`). -/
theorem scan_failure_surfaced (bu : Except String (List (String × BucketEnc)))
    (ta : Except String (List (String × TableInspect)))
    (pf : Option String) (fa : Bool) (e : String) :
    (bu = .error e → handler ⟨bu, ta, pf, fa⟩ = (.error e, [failAlertMsg e])) ∧
    (∀ bs, bu = .ok bs → ta = .error e →
      handler ⟨bu, ta, pf, fa⟩ = (.error e, [failAlertMsg e])) ∧
    (∀ fa' : Bool, handler ⟨bu, ta, pf, fa⟩ = handler ⟨bu, ta, pf, fa'⟩) := by
  refine ⟨fun h => ?_, fun bs hb ht => ?_, fun fa' => rfl⟩
  · subst h; rfl
  · subst hb; subst ht; rfl

/-- Witness for `scan_failure_surfaced`: bucket enumeration fails and the
secondary alert publish also fails, yet the original error is raised and the
scan-failed alert was the attempt made. -/
theorem scan_failure_surfaced_witness :
    (Except.error "ListBuckets AccessDenied" :
        Except String (List (String × BucketEnc))) = .error "ListBuckets AccessDenied" ∧
    handler ⟨.error "ListBuckets AccessDenied", .ok [], none, true⟩ =
      (.error "ListBuckets AccessDenied", [failAlertMsg "ListBuckets AccessDenied"]) :=
  ⟨rfl,
   (scan_failure_surfaced (.error "ListBuckets AccessDenied") (.ok []) none true
     "ListBuckets AccessDenied").1 rfl⟩

end Monitor
